import Mathlib

/-!
Shallow embedding of the BLS batched time-series ingestion-and-transform
pipeline shared by `export_cpi_details.py`, `export_ppi_details.py` and
`export_employment_details.py`, together with theorems settling the frozen
claims about it.

Conventions of the embedding:
* Python strings are Lean `String`s; character comparisons are by code point
  (`Char.toNat`), which matches Python's string ordering.
* Python `float` values are modelled as exact rationals `ℚ`; the pandas
  float domain (including `inf`/`-inf`/`NaN`) is modelled by `PdVal`.
* Fallible Python code (raising exceptions) is modelled with `Except PyError`.
* pandas calls are embedded by their documented semantics (noted at each
  definition), since pandas itself is not part of this repository.
-/

/-- Python exceptions that the scripts can raise or catch. -/
inductive PyError where
  /-- Python `ValueError` (raised by `int()`, `float()`, `pd.Timestamp`). -/
  | valueError : String → PyError
  /-- Python `RuntimeError` (raised by the scripts themselves). -/
  | runtimeError : String → PyError
  /-- a `requests` transport exception (connection error, timeout, ...). -/
  | requestError : String → PyError
  /-- The `requests.HTTPError` raised by `resp.raise_for_status()`. -/
  | httpError : Int → PyError
  /-- failure of `resp.json()` to decode the body. -/
  | jsonError : PyError
deriving DecidableEq

/-- Holds for the ASCII digit characters `'0'`–`'9'`. -/
def isDigitChar (c : Char) : Bool := 48 ≤ c.toNat && c.toNat ≤ 57

/-- Numeric value of a digit string (most significant digit first). -/
def digitsToNat (cs : List Char) : Nat :=
  cs.foldl (fun acc c => acc * 10 + (c.toNat - 48)) 0

/-- Python `int(s)` on the decimal literals the BLS API emits: an optional
sign followed by at least one digit.  Returns `none` where `int()` raises
`ValueError` (empty string, stray characters).  Surrounding whitespace and
underscores, which never occur in the data at hand, are out of scope. -/
def pyIntOfString (s : String) : Option Int :=
  match s.data with
  | '-' :: rest =>
      if rest ≠ [] ∧ rest.all isDigitChar then some (-(digitsToNat rest : Int)) else none
  | '+' :: rest =>
      if rest ≠ [] ∧ rest.all isDigitChar then some (digitsToNat rest : Int) else none
  | cs =>
      if cs ≠ [] ∧ cs.all isDigitChar then some (digitsToNat cs : Int) else none

/-- Python `float(s)` on the plain decimal literals the BLS API emits: an
optional sign, an integer part and an optional fractional part, with at
least one digit overall.  Returns `none` where `float()` raises
`ValueError` — in particular on strings still containing a grouping
comma.  Exponent notation, `inf`/`nan` and surrounding whitespace are out
of scope of the claims. -/
def pyFloatBody (body : List Char) : Option ℚ :=
  let intPart := body.takeWhile isDigitChar
  match body.dropWhile isDigitChar with
  | [] => if intPart = [] then none else some (digitsToNat intPart : ℚ)
  | '.' :: frac =>
      if frac.all isDigitChar ∧ (intPart ≠ [] ∨ frac ≠ []) then
        some ((digitsToNat intPart : ℚ) + (digitsToNat frac : ℚ) / (10 ^ frac.length))
      else none
  | _ => none

/-- Python `float(s)` (see `pyFloatBody` for the accepted bodies). -/
def pyFloatOfString (s : String) : Option ℚ :=
  match s.data with
  | '-' :: rest => (pyFloatBody rest).map (fun q => -q)
  | '+' :: rest => pyFloatBody rest
  | cs => pyFloatBody cs

/-- Python `s.replace(",", "")`: drop every comma. -/
def stripCommas (s : String) : String := String.mk (s.data.filter (fun c => c ≠ ','))

/-- Python `s.startswith("M")`. -/
def startsWithM (p : String) : Bool :=
  match p.data with
  | 'M' :: _ => true
  | _ => false

/-- Python `s[1:]`. -/
def dropFirstChar (s : String) : String := String.mk (s.data.drop 1)

/-- A calendar date, as carried by a `pd.Timestamp`. -/
structure Date where
  year : Int
  month : Int
  day : Int
deriving DecidableEq

/-- A `pd.Timestamp`: a calendar date plus the nanosecond of the day.
`nano = 0` is midnight; `pd.Period(..).to_timestamp(how="end")` produces
`nano = nsPerDay - 1` (the last nanosecond of the day). -/
structure Timestamp where
  date : Date
  nano : Int
deriving DecidableEq

/-- Nanoseconds in a day. -/
def nsPerDay : Int := 86400000000000

/-- Gregorian leap-year rule (as used by pandas). -/
def isLeapYear (y : Int) : Bool := (y % 4 == 0 && y % 100 != 0) || y % 400 == 0

/-- Number of days of month `m` of year `y` in the Gregorian calendar
(as used by pandas); only consulted for `1 ≤ m ≤ 12`. -/
def daysInMonth (y m : Int) : Int :=
  if m = 2 then (if isLeapYear y then 29 else 28)
  else if m = 4 ∨ m = 6 ∨ m = 9 ∨ m = 11 then 30
  else 31

/-- The civil successor of a date (next calendar day), defined directly
from the Gregorian calendar. -/
def nextDay (d : Date) : Date :=
  if d.day < daysInMonth d.year d.month then ⟨d.year, d.month, d.day + 1⟩
  else if d.month < 12 then ⟨d.year, d.month + 1, 1⟩
  else ⟨d.year + 1, 1, 1⟩

/-- Embeds `pd.Timestamp(year=y, month=m, day=1)`: midnight of the first of the
month; raises `ValueError` when the month is not in 1..12 (this is what
happens on a BLS `"M13"` annual-average period code). -/
def mkTimestampDay1 (y m : Int) : Except PyError Timestamp :=
  if 1 ≤ m ∧ m ≤ 12 then .ok ⟨⟨y, m, 1⟩, 0⟩
  else .error (.valueError "month must be in 1..12")

/-- Embeds `t + pd.offsets.MonthEnd(0)`: roll forward to the month's last calendar
day (a timestamp already on the month end is left unchanged; the time of
day is kept). -/
def monthEnd0 (t : Timestamp) : Timestamp :=
  if t.date.day = daysInMonth t.date.year t.date.month then t
  else ⟨⟨t.date.year, t.date.month, daysInMonth t.date.year t.date.month⟩, t.nano⟩

/-- Embeds `pd.Period("YYYY-MM", freq="M").to_timestamp(how="end")` for the month
`(y, m)`: the LAST NANOSECOND of the month (pandas returns e.g.
`2000-01-31 23:59:59.999999999`, not midnight of the 31st). -/
def periodToTimestampEnd (y m : Int) : Timestamp :=
  ⟨⟨y, m, daysInMonth y m⟩, nsPerDay - 1⟩

/-- Lexicographic `≤` on `List Int` (`[]` least). -/
def intListLe : List Int → List Int → Bool
  | [], _ => true
  | _ :: _, [] => false
  | a :: as, b :: bs => if a < b then true else if b < a then false else intListLe as bs

/-- Sort/compare key of a timestamp: year, month, day, nanosecond. -/
def tsKey (t : Timestamp) : List Int :=
  [t.date.year, t.date.month, t.date.day, t.nano]

/-- Comparison `a <= b` on timestamps (the comparison pandas performs on a
`datetime64` column). -/
def tsLe (a b : Timestamp) : Bool := intListLe (tsKey a) (tsKey b)

/-- Strict code-point-lexicographic `<` on character lists — Python's
string ordering. -/
def pyStrLtL : List Char → List Char → Bool
  | [], [] => false
  | [], _ :: _ => true
  | _ :: _, [] => false
  | a :: as, b :: bs =>
      if a.toNat < b.toNat then true
      else if b.toNat < a.toNat then false
      else pyStrLtL as bs

/-- Python `a < b` on strings. -/
def pyStrLt (a b : String) : Bool := pyStrLtL a.data b.data

/-- One element of a series' `data` array in the BLS response JSON.
All fields are strings in the wire format (`year` and `value` are parsed
by the scripts with `int()` / `float()`). -/
structure DataItem where
  year : String
  period : String
  value : String
deriving DecidableEq

/-- One element of `Results.series` in the BLS response JSON. -/
structure SeriesData where
  seriesID : String
  data : List DataItem
deriving DecidableEq

/-- A parsed BLS response body: `status`, optional `message`, and
`Results.series` (the scripts read it as
`data.get("Results", {}).get("series", [])`). -/
structure BlsBody where
  status : String
  message : Option String
  series : List SeriesData
deriving DecidableEq

/-- Python `labels.get(sid, sid)` over an association list built from the
series catalog (catalog series ids are unique in a run). -/
def lookupDefault (m : List (String × String)) (sid : String) : String :=
  match m.find? (fun p => p.1 = sid) with
  | some p => p.2
  | none => sid

/-- One row of the Long DataFrame built by `parse_bls_result`
(`[series_id, label, PeriodEnd, value]`). -/
structure Row where
  series_id : String
  label : String
  periodEnd : Timestamp
  value : ℚ
deriving DecidableEq

/-- One row of the employment variant's Long DataFrame
(`[series_id, label, value_type, PeriodEnd, value]`). -/
structure EmpRow where
  series_id : String
  label : String
  value_type : String
  periodEnd : Timestamp
  value : ℚ
deriving DecidableEq

/-- Embeds the `df.sort_values(["label", "PeriodEnd"])` comparison key: label first
(Python string order), then period end.  Ties (equal label and period end)
are left in an arbitrary but fixed order, as pandas' default unstable sort
gives no guarantee there. -/
def rowLe (a b : Row) : Bool :=
  if a.label = b.label then tsLe a.periodEnd b.periodEnd else pyStrLt a.label b.label

/-- The sort key of the employment variant is the same pair. -/
def empRowLe (a b : EmpRow) : Bool :=
  if a.label = b.label then tsLe a.periodEnd b.periodEnd else pyStrLt a.label b.label

/-- Relation form of `rowLe`, decidable, for `List.insertionSort`. -/
def rowOrd (a b : Row) : Prop := rowLe a b = true

/-- Relation form of `empRowLe`, decidable. -/
def empRowOrd (a b : EmpRow) : Prop := empRowLe a b = true

instance : DecidableRel rowOrd := fun a b => instDecidableEqBool (rowLe a b) true

instance : DecidableRel empRowOrd := fun a b => instDecidableEqBool (empRowLe a b) true

/-- Embeds `export_cpi_details.py` lines 106–116, body of the inner loop of
`parse_bls_result`: parse one `data` item of one series into an optional
row.  NOTE the faithful order of operations: `year` is parsed first; the
period filter is only `period.startswith("M")` (so `"M13"` is NOT
filtered out here, `month` becomes `13` and `pd.Timestamp` raises);
`value` has commas stripped before `float()`. -/
def parseItemCpi (sid lab : String) (item : DataItem) : Except PyError (Option Row) :=
  match pyIntOfString item.year with
  | none => .error (.valueError ("invalid literal for int(): " ++ item.year))
  | some year =>
    if startsWithM item.period = false then .ok none
    else
      match pyIntOfString (dropFirstChar item.period) with
      | none => .error (.valueError ("invalid literal for int(): " ++ dropFirstChar item.period))
      | some month =>
        match pyFloatOfString (stripCommas item.value) with
        | none => .error (.valueError ("could not convert string to float: " ++ stripCommas item.value))
        | some value =>
          match mkTimestampDay1 year month with
          | .error e => .error e
          | .ok t1 => .ok (some ⟨sid, lab, monthEnd0 t1, value⟩)

/-- Embeds `export_ppi_details.py` lines 104–111: same loop body, but the period
filter is `not period.startswith("M") or period == "M13"` (so `"M13"` IS
skipped), and `float(item["value"])` is applied WITHOUT comma stripping. -/
def parseItemPpi (sid lab : String) (item : DataItem) : Except PyError (Option Row) :=
  match pyIntOfString item.year with
  | none => .error (.valueError ("invalid literal for int(): " ++ item.year))
  | some year =>
    if startsWithM item.period = false ∨ item.period = "M13" then .ok none
    else
      match pyIntOfString (dropFirstChar item.period) with
      | none => .error (.valueError ("invalid literal for int(): " ++ dropFirstChar item.period))
      | some month =>
        match pyFloatOfString item.value with
        | none => .error (.valueError ("could not convert string to float: " ++ item.value))
        | some value =>
          match mkTimestampDay1 year month with
          | .error e => .error e
          | .ok t1 => .ok (some ⟨sid, lab, monthEnd0 t1, value⟩)

/-- Embeds `export_employment_details.py` lines 115–123: the period is examined
before `year` is parsed; like the CPI variant the filter is only
`period.startswith("M")` (`"M13"` again reaches `pd.Timestamp`), and the
value is comma-stripped (`str()` on a string is the identity). -/
def parseItemEmp (sid lab vtype : String) (item : DataItem) : Except PyError (Option EmpRow) :=
  if startsWithM item.period = false then .ok none
  else
    match pyIntOfString item.year with
    | none => .error (.valueError ("invalid literal for int(): " ++ item.year))
    | some year =>
      match pyIntOfString (dropFirstChar item.period) with
      | none => .error (.valueError ("invalid literal for int(): " ++ dropFirstChar item.period))
      | some month =>
        match pyFloatOfString (stripCommas item.value) with
        | none => .error (.valueError ("could not convert string to float: " ++ stripCommas item.value))
        | some value =>
          match mkTimestampDay1 year month with
          | .error e => .error e
          | .ok t1 => .ok (some ⟨sid, lab, vtype, monthEnd0 t1, value⟩)

/-- The inner `for item in ts.get("data", [])` loop: first exception
aborts, skipped items contribute nothing. -/
def parseItemsCpi (sid lab : String) : List DataItem → Except PyError (List Row)
  | [] => .ok []
  | it :: its =>
    match parseItemCpi sid lab it with
    | .error e => .error e
    | .ok none => parseItemsCpi sid lab its
    | .ok (some r) =>
      match parseItemsCpi sid lab its with
      | .error e => .error e
      | .ok rs => .ok (r :: rs)

/-- The PPI variant of the inner loop. -/
def parseItemsPpi (sid lab : String) : List DataItem → Except PyError (List Row)
  | [] => .ok []
  | it :: its =>
    match parseItemPpi sid lab it with
    | .error e => .error e
    | .ok none => parseItemsPpi sid lab its
    | .ok (some r) =>
      match parseItemsPpi sid lab its with
      | .error e => .error e
      | .ok rs => .ok (r :: rs)

/-- The employment variant of the inner loop. -/
def parseItemsEmp (sid lab vtype : String) : List DataItem → Except PyError (List EmpRow)
  | [] => .ok []
  | it :: its =>
    match parseItemEmp sid lab vtype it with
    | .error e => .error e
    | .ok none => parseItemsEmp sid lab vtype its
    | .ok (some r) =>
      match parseItemsEmp sid lab vtype its with
      | .error e => .error e
      | .ok rs => .ok (r :: rs)

/-- The outer `for ts in data...Results.series` loop of the CPI variant. -/
def parseSeriesCpi (labels : List (String × String)) : List SeriesData → Except PyError (List Row)
  | [] => .ok []
  | ts :: rest =>
    match parseItemsCpi ts.seriesID (lookupDefault labels ts.seriesID) ts.data with
    | .error e => .error e
    | .ok rows =>
      match parseSeriesCpi labels rest with
      | .error e => .error e
      | .ok more => .ok (rows ++ more)

/-- The outer loop of the PPI variant. -/
def parseSeriesPpi (labels : List (String × String)) : List SeriesData → Except PyError (List Row)
  | [] => .ok []
  | ts :: rest =>
    match parseItemsPpi ts.seriesID (lookupDefault labels ts.seriesID) ts.data with
    | .error e => .error e
    | .ok rows =>
      match parseSeriesPpi labels rest with
      | .error e => .error e
      | .ok more => .ok (rows ++ more)

/-- The outer loop of the employment variant; `vtypes.get(sid, "level")`
supplies the value kind. -/
def parseSeriesEmp (labels vtypes : List (String × String)) :
    List SeriesData → Except PyError (List EmpRow)
  | [] => .ok []
  | ts :: rest =>
    match parseItemsEmp ts.seriesID (lookupDefault labels ts.seriesID)
        (match vtypes.find? (fun p => p.1 = ts.seriesID) with
         | some p => p.2
         | none => "level") ts.data with
    | .error e => .error e
    | .ok rows =>
      match parseSeriesEmp labels vtypes rest with
      | .error e => .error e
      | .ok more => .ok (rows ++ more)

/-- Embeds `parse_bls_result` of `export_cpi_details.py` (lines 97–119): build the
rows, then `df.sort_values(["label", "PeriodEnd"])`.  Insertion sort is
used as the concrete sorting algorithm (pandas' default sort is unstable,
so the order among full-key ties is unspecified in the source; any sort by
the key refines it). -/
def parse_bls_result_cpi (data : BlsBody) (labels : List (String × String)) :
    Except PyError (List Row) :=
  match parseSeriesCpi labels data.series with
  | .error e => .error e
  | .ok rows => .ok (List.insertionSort rowOrd rows)

/-- Embeds `parse_bls_result` of `export_ppi_details.py` (lines 98–114). -/
def parse_bls_result_ppi (data : BlsBody) (labels : List (String × String)) :
    Except PyError (List Row) :=
  match parseSeriesPpi labels data.series with
  | .error e => .error e
  | .ok rows => .ok (List.insertionSort rowOrd rows)

/-- Embeds `parse_bls_result` of `export_employment_details.py` (lines 105–126). -/
def parse_bls_result_emp (data : BlsBody) (labels vtypes : List (String × String)) :
    Except PyError (List EmpRow) :=
  match parseSeriesEmp labels vtypes data.series with
  | .error e => .error e
  | .ok rows => .ok (List.insertionSort empRowOrd rows)

/-- Embeds `export_cpi_details.py` lines 166–171 (and identically
`export_employment_details.py` lines 187–192): the date cut.  The cuts are
`pd.Period(START).to_timestamp(how="end")` and, when `END` is set,
`pd.Period(END).to_timestamp(how="end")`; the filter keeps rows with
`start_cut <= PeriodEnd` (and `PeriodEnd <= end_cut` when `END` is set).
`export_ppi_details.py` has NO such step — its `main` pivots `long_df`
directly. -/
def windowFilter (rows : List Row) (start : Int × Int) (stop : Option (Int × Int)) :
    List Row :=
  match stop with
  | some e =>
      rows.filter (fun r =>
        tsLe (periodToTimestampEnd start.1 start.2) r.periodEnd &&
        tsLe r.periodEnd (periodToTimestampEnd e.1 e.2))
  | none =>
      rows.filter (fun r => tsLe (periodToTimestampEnd start.1 start.2) r.periodEnd)

/-- A pandas float cell: a finite value, `inf`, `-inf`, or `NaN`
(`NaN` doubles as the missing/null cell — pandas `isna` is true exactly
on `NaN`). -/
inductive PdVal where
  | nan : PdVal
  | pinf : PdVal
  | ninf : PdVal
  | num : ℚ → PdVal
deriving DecidableEq

/-- pandas/NumPy float division on cells (IEEE-754 semantics over exact
rationals; pandas turns a zero divisor into `±inf`/`NaN`, not an error). -/
def pdDiv : PdVal → PdVal → PdVal
  | .nan, _ => .nan
  | _, .nan => .nan
  | .num a, .num b =>
      if b = 0 then (if 0 < a then .pinf else if a < 0 then .ninf else .nan)
      else .num (a / b)
  | .num _, .pinf => .num 0
  | .num _, .ninf => .num 0
  | .pinf, .num b => if 0 ≤ b then .pinf else .ninf
  | .ninf, .num b => if 0 ≤ b then .ninf else .pinf
  | .pinf, .pinf => .nan
  | .pinf, .ninf => .nan
  | .ninf, .pinf => .nan
  | .ninf, .ninf => .nan

/-- pandas/NumPy float subtraction on cells. -/
def pdSub : PdVal → PdVal → PdVal
  | .nan, _ => .nan
  | _, .nan => .nan
  | .num a, .num b => .num (a - b)
  | .pinf, .pinf => .nan
  | .pinf, _ => .pinf
  | .ninf, .ninf => .nan
  | .ninf, _ => .ninf
  | .num _, .pinf => .ninf
  | .num _, .ninf => .pinf

/-- pandas/NumPy float multiplication on cells. -/
def pdMul : PdVal → PdVal → PdVal
  | .nan, _ => .nan
  | _, .nan => .nan
  | .num a, .num b => .num (a * b)
  | .pinf, .pinf => .pinf
  | .pinf, .ninf => .ninf
  | .ninf, .pinf => .ninf
  | .ninf, .ninf => .pinf
  | .pinf, .num b => if 0 < b then .pinf else if b < 0 then .ninf else .nan
  | .ninf, .num b => if 0 < b then .ninf else if b < 0 then .pinf else .nan
  | .num a, .pinf => if 0 < a then .pinf else if a < 0 then .ninf else .nan
  | .num a, .ninf => if 0 < a then .ninf else if a < 0 then .pinf else .nan

/-- Embeds the `pivot_table(index="PeriodEnd", columns="label", values="value")` cell
at `(t, lab)`: pandas' DEFAULT `aggfunc` is the MEAN of all values mapped
to the cell, and a cell with no source rows is `NaN`.  (The scripts pass
no `aggfunc`, so colliding `(PeriodEnd, label)` pairs are averaged
silently; nothing in the pivot raises.) -/
def pivotCell (rows : List Row) (t : Timestamp) (lab : String) : PdVal :=
  match (rows.filter (fun r => r.periodEnd = t && r.label = lab)).map Row.value with
  | [] => .nan
  | v :: vs => .num ((v :: vs).sum / (v :: vs).length)

/-- Embeds `col.shift(k)` on one pivot column (pandas shifts values down by `k`
positions, filling the first `k` entries with `NaN`; the length is
unchanged). -/
def shiftCol (k : Nat) (col : List PdVal) : List PdVal :=
  (List.replicate k PdVal.nan ++ col).take col.length

/-- One column of `(pivot_df / pivot_df.shift(lag) - 1.0) * 100.0` —
`compute_pct_changes` of `export_cpi_details.py` lines 122–130 (and
`export_ppi_details.py` lines 116–120) with `lag = 1` for MoM and
`lag = 12` for YoY; also the `MoM_pct_level` / `YoY_pct_level` columns of
the employment variant's `build_changes` (lines 150–155). -/
def pctChangeCol (lag : Nat) (col : List PdVal) : List PdVal :=
  (col.zip (shiftCol lag col)).map
    (fun p => pdMul (pdSub (pdDiv p.1 p.2) (.num 1)) (.num 100))

/-- One column of `pivot_level - pivot_level.shift(lag)` — the
`MoM_abs_level` / `YoY_abs_level` columns and, for `kind=rate` columns,
the `MoM_pp_rate` / `YoY_pp_rate` point-difference columns of
`build_changes` (`export_employment_details.py` lines 141–160). -/
def diffChangeCol (lag : Nat) (col : List PdVal) : List PdVal :=
  (col.zip (shiftCol lag col)).map (fun p => pdSub p.1 p.2)

/-- One labelled pivot column together with its declared value kind, the
shape on which `build_changes` (employment variant) operates. -/
structure LabeledCol where
  label : String
  vtype : String
  col : List PdVal
deriving DecidableEq

/-- Embeds `build_changes` lines 157–160: the `MoM_pp_rate` table holds, for
exactly the columns declared `rate`, the lag-1 point difference. -/
def momPpRate (cols : List LabeledCol) : List (String × List PdVal) :=
  (cols.filter (fun c => c.vtype = "rate")).map (fun c => (c.label, diffChangeCol 1 c.col))

/-- Embeds `build_changes` lines 157–160: the `YoY_pp_rate` table (lag 12). -/
def yoyPpRate (cols : List LabeledCol) : List (String × List PdVal) :=
  (cols.filter (fun c => c.vtype = "rate")).map (fun c => (c.label, diffChangeCol 12 c.col))

/-- The outcome the environment hands one `requests.post` attempt:
either a transport fault (a `requests` exception), or an HTTP response
with a final status code and a body that either is JSON (`some` parsed
body) or is not. -/
inductive AttemptOutcome where
  | transportError : String → AttemptOutcome
  | response : Int → Option BlsBody → AttemptOutcome
deriving DecidableEq

/-- The `try` body of `call_bls` (`export_cpi_details.py` lines 82–88) on
one attempt's outcome: `resp.raise_for_status()` raises exactly for final
status codes in `[400, 600)` (that is `requests`' rule — NOT "non-2xx");
`resp.json()` raises on a non-JSON body; a parsed body whose `status`
field differs from `"REQUEST_SUCCEEDED"` raises `RuntimeError`; otherwise
the parsed body is returned. -/
def attemptEval : AttemptOutcome → Except PyError BlsBody
  | .transportError msg => .error (.requestError msg)
  | .response code body? =>
      if 400 ≤ code ∧ code < 600 then .error (.httpError code)
      else
        match body? with
        | none => .error .jsonError
        | some body =>
            if body.status = "REQUEST_SUCCEEDED" then .ok body
            else
              .error (.runtimeError ("BLS API not succeeded: " ++
                (match body.message with
                 | some m => m
                 | none => "None")))

/-- Constant `RETRIES = 3` (all three scripts). -/
def RETRIES : Nat := 3

/-- Constant `BACKOFF = 1.6` (all three scripts), as an exact rational. -/
def BACKOFF : ℚ := 8 / 5

/-- The retry loop of `call_bls` from attempt number `attempt` on, given
the oracle of attempt outcomes; returns the result together with the
total seconds slept (`time.sleep(BACKOFF ** attempt)` runs after every
failed attempt except the last, which re-raises the failure). -/
def callBlsFrom (oracle : Nat → AttemptOutcome) (attempt : Nat) (slept : ℚ) :
    Except PyError BlsBody × ℚ :=
  match attemptEval (oracle attempt) with
  | .ok d => (.ok d, slept)
  | .error e =>
      if _h : attempt < RETRIES then
        callBlsFrom oracle (attempt + 1) (slept + BACKOFF ^ attempt)
      else (.error e, slept)
termination_by RETRIES + 1 - attempt

/-- Embeds `call_bls` (`export_cpi_details.py` lines 78–94): attempts are
numbered 1, 2, 3; no sleep has happened before the first attempt. -/
def call_bls (oracle : Nat → AttemptOutcome) : Except PyError BlsBody × ℚ :=
  callBlsFrom oracle 1 0

/-- Embeds `chunked(lst, n)` (`export_cpi_details.py` lines 60–63): successive
slices `lst[i:i+n]` for `i = 0, n, 2n, ...`.  For `n ≥ 1` this equals the
recursion below (`(x :: xs).drop n = xs.drop (n - 1)`); the scripts only
call it with `n = 50`.  (For `n = 0` Python's `range` raises; the value
below at `n = 0` is immaterial.) -/
def chunked {α : Type} : List α → Nat → List (List α)
  | [], _ => []
  | x :: xs, n => (x :: xs).take n :: chunked (xs.drop (n - 1)) n
termination_by l => l.length
decreasing_by simp; omega

/-! ### Order-theoretic facts about the sort keys -/

theorem intListLe_trans : ∀ {as bs cs : List Int},
    intListLe as bs = true → intListLe bs cs = true → intListLe as cs = true
  | [], _, _, _, _ => rfl
  | _ :: _, [], _, h, _ => by simp [intListLe] at h
  | _ :: _, _ :: _, [], _, h => by simp [intListLe] at h
  | a :: as, b :: bs, c :: cs, h1, h2 => by
      simp only [intListLe] at h1 h2 ⊢
      rcases lt_trichotomy a b with hab | hab | hab
      · rcases lt_trichotomy b c with hbc | hbc | hbc
        · rw [if_pos (show a < c by omega)]
        · subst hbc
          rw [if_pos hab]
        · rw [if_neg (show ¬ b < c by omega), if_pos hbc] at h2
          simp at h2
      · subst hab
        rcases lt_trichotomy a c with hac | hac | hac
        · rw [if_pos hac]
        · subst hac
          rw [if_neg (lt_irrefl a), if_neg (lt_irrefl a)] at h1 h2 ⊢
          exact intListLe_trans h1 h2
        · rw [if_neg (show ¬ a < c by omega), if_pos hac] at h2
          simp at h2
      · rw [if_neg (show ¬ a < b by omega), if_pos hab] at h1
        simp at h1

theorem intListLe_total : ∀ (as bs : List Int),
    intListLe as bs = true ∨ intListLe bs as = true
  | [], _ => .inl rfl
  | _ :: _, [] => .inr rfl
  | a :: as, b :: bs => by
      simp only [intListLe]
      rcases lt_trichotomy a b with hab | hab | hab
      · refine .inl ?_
        rw [if_pos hab]
      · subst hab
        simp only [if_neg (lt_irrefl a)]
        exact intListLe_total as bs
      · refine .inr ?_
        rw [if_pos hab]

theorem pyStrLtL_trans : ∀ {as bs cs : List Char},
    pyStrLtL as bs = true → pyStrLtL bs cs = true → pyStrLtL as cs = true
  | [], [], _, h, _ => by simp [pyStrLtL] at h
  | [], _ :: _, [], _, h => by simp [pyStrLtL] at h
  | [], _ :: _, _ :: _, _, _ => rfl
  | _ :: _, [], _, h, _ => by simp [pyStrLtL] at h
  | _ :: _, _ :: _, [], _, h => by simp [pyStrLtL] at h
  | a :: as, b :: bs, c :: cs, h1, h2 => by
      simp only [pyStrLtL] at h1 h2 ⊢
      rcases lt_trichotomy a.toNat b.toNat with hab | hab | hab
      · rcases lt_trichotomy b.toNat c.toNat with hbc | hbc | hbc
        · rw [if_pos (show a.toNat < c.toNat by omega)]
        · rw [if_pos (show a.toNat < c.toNat by omega)]
        · rw [if_neg (show ¬ b.toNat < c.toNat by omega), if_pos hbc] at h2
          simp at h2
      · rcases lt_trichotomy b.toNat c.toNat with hbc | hbc | hbc
        · rw [if_pos (show a.toNat < c.toNat by omega)]
        · rw [if_neg (show ¬ a.toNat < b.toNat by omega),
              if_neg (show ¬ b.toNat < a.toNat by omega)] at h1
          rw [if_neg (show ¬ b.toNat < c.toNat by omega),
              if_neg (show ¬ c.toNat < b.toNat by omega)] at h2
          rw [if_neg (show ¬ a.toNat < c.toNat by omega),
              if_neg (show ¬ c.toNat < a.toNat by omega)]
          exact pyStrLtL_trans h1 h2
        · rw [if_neg (show ¬ b.toNat < c.toNat by omega), if_pos hbc] at h2
          simp at h2
      · rw [if_neg (show ¬ a.toNat < b.toNat by omega), if_pos hab] at h1
        simp at h1

theorem pyStrLtL_not_both : ∀ {as bs : List Char},
    pyStrLtL as bs = false → pyStrLtL bs as = false → as = bs
  | [], [], _, _ => rfl
  | [], _ :: _, h, _ => by simp [pyStrLtL] at h
  | _ :: _, [], _, h => by simp [pyStrLtL] at h
  | a :: as, b :: bs, h1, h2 => by
      simp only [pyStrLtL] at h1 h2
      rcases lt_trichotomy a.toNat b.toNat with hab | hab | hab
      · rw [if_pos hab] at h1
        simp at h1
      · have hchar : a = b := Char.eq_of_val_eq (UInt32.ext hab)
        rw [if_neg (show ¬ a.toNat < b.toNat by omega),
            if_neg (show ¬ b.toNat < a.toNat by omega)] at h1
        rw [if_neg (show ¬ b.toNat < a.toNat by omega),
            if_neg (show ¬ a.toNat < b.toNat by omega)] at h2
        rw [hchar, pyStrLtL_not_both h1 h2]
      · rw [if_pos hab] at h2
        simp at h2

theorem pyStrLt_total_of_ne {a b : String} (h : a ≠ b) :
    pyStrLt a b = true ∨ pyStrLt b a = true := by
  by_cases h1 : pyStrLt a b = true
  · exact .inl h1
  · by_cases h2 : pyStrLt b a = true
    · exact .inr h2
    · exfalso
      apply h
      have hd : a.data = b.data :=
        pyStrLtL_not_both (by simpa [pyStrLt] using h1) (by simpa [pyStrLt] using h2)
      exact String.ext hd

theorem pyStrLtL_irrefl : ∀ (as : List Char), pyStrLtL as as = false
  | [] => rfl
  | a :: as => by simp [pyStrLtL, pyStrLtL_irrefl as]

theorem pyStrLt_ne_of_lt {a b : String} (h : pyStrLt a b = true) : a ≠ b := by
  intro hab
  rw [hab, pyStrLt, pyStrLtL_irrefl] at h
  exact Bool.false_ne_true h

theorem rowLe_trans {a b c : Row} (h1 : rowLe a b = true) (h2 : rowLe b c = true) :
    rowLe a c = true := by
  unfold rowLe at h1 h2 ⊢
  by_cases hab : a.label = b.label
  · by_cases hbc : b.label = c.label
    · simp only [if_pos hab] at h1
      simp only [if_pos hbc] at h2
      simp only [if_pos (hab.trans hbc)]
      exact intListLe_trans h1 h2
    · simp only [if_neg hbc] at h2
      simp only [hab, if_neg hbc]
      exact h2
  · by_cases hbc : b.label = c.label
    · simp only [if_neg hab] at h1
      rw [hbc] at hab h1
      simp only [if_neg hab]
      exact h1
    · simp only [if_neg hab] at h1
      simp only [if_neg hbc] at h2
      have hac : pyStrLt a.label c.label = true := pyStrLtL_trans h1 h2
      simp [if_neg (pyStrLt_ne_of_lt hac), hac]

theorem rowLe_total (a b : Row) : rowLe a b = true ∨ rowLe b a = true := by
  unfold rowLe
  by_cases hab : a.label = b.label
  · simp only [if_pos hab, if_pos hab.symm]
    exact intListLe_total _ _
  · simp only [if_neg hab, if_neg (Ne.symm hab)]
    exact pyStrLt_total_of_ne hab

instance : IsTrans Row rowOrd := ⟨fun _ _ _ => rowLe_trans⟩

instance : IsTotal Row rowOrd := ⟨rowLe_total⟩

theorem empRowLe_trans {a b c : EmpRow} (h1 : empRowLe a b = true)
    (h2 : empRowLe b c = true) : empRowLe a c = true := by
  unfold empRowLe at h1 h2 ⊢
  by_cases hab : a.label = b.label
  · by_cases hbc : b.label = c.label
    · simp only [if_pos hab] at h1
      simp only [if_pos hbc] at h2
      simp only [if_pos (hab.trans hbc)]
      exact intListLe_trans h1 h2
    · simp only [if_neg hbc] at h2
      simp only [hab, if_neg hbc]
      exact h2
  · by_cases hbc : b.label = c.label
    · simp only [if_neg hab] at h1
      rw [hbc] at hab h1
      simp only [if_neg hab]
      exact h1
    · simp only [if_neg hab] at h1
      simp only [if_neg hbc] at h2
      have hac : pyStrLt a.label c.label = true := pyStrLtL_trans h1 h2
      simp [if_neg (pyStrLt_ne_of_lt hac), hac]

theorem empRowLe_total (a b : EmpRow) : empRowLe a b = true ∨ empRowLe b a = true := by
  unfold empRowLe
  by_cases hab : a.label = b.label
  · simp only [if_pos hab, if_pos hab.symm]
    exact intListLe_total _ _
  · simp only [if_neg hab, if_neg (Ne.symm hab)]
    exact pyStrLt_total_of_ne hab

instance : IsTrans EmpRow empRowOrd := ⟨fun _ _ _ => empRowLe_trans⟩

instance : IsTotal EmpRow empRowOrd := ⟨empRowLe_total⟩

/-! ### Shape facts about parsed rows -/

/-- A timestamp that is midnight of the last calendar day of its month,
with a valid month number. -/
def isMonthEndStamp (t : Timestamp) : Prop :=
  t.date.day = daysInMonth t.date.year t.date.month ∧ t.nano = 0 ∧
  1 ≤ t.date.month ∧ t.date.month ≤ 12

theorem daysInMonth_ge_28 (y m : Int) : 28 ≤ daysInMonth y m := by
  unfold daysInMonth
  split
  · split <;> omega
  · split <;> omega

theorem mkTimestampDay1_ok {y m : Int} {t : Timestamp}
    (h : mkTimestampDay1 y m = .ok t) : t = ⟨⟨y, m, 1⟩, 0⟩ ∧ 1 ≤ m ∧ m ≤ 12 := by
  unfold mkTimestampDay1 at h
  split at h
  · rename_i hm
    cases h
    exact ⟨rfl, hm.1, hm.2⟩
  · cases h

theorem monthEnd0_day1 {y m : Int} (h1 : 1 ≤ m) (h2 : m ≤ 12) :
    isMonthEndStamp (monthEnd0 ⟨⟨y, m, 1⟩, 0⟩) := by
  have hd : (1 : Int) ≠ daysInMonth y m := by
    have := daysInMonth_ge_28 y m
    omega
  unfold monthEnd0
  simp only [if_neg hd]
  exact ⟨rfl, rfl, h1, h2⟩

theorem parseItemCpi_monthEnd {sid lab : String} {item : DataItem} {r : Row}
    (h : parseItemCpi sid lab item = .ok (some r)) : isMonthEndStamp r.periodEnd := by
  unfold parseItemCpi at h
  split at h
  · cases h
  · split at h
    · cases h
    · split at h
      · cases h
      · split at h
        · cases h
        · split at h
          · cases h
          · rename_i t1 heq
            obtain ⟨ht, hm1, hm2⟩ := mkTimestampDay1_ok heq
            subst ht
            cases h
            exact monthEnd0_day1 hm1 hm2

theorem parseItemPpi_monthEnd {sid lab : String} {item : DataItem} {r : Row}
    (h : parseItemPpi sid lab item = .ok (some r)) : isMonthEndStamp r.periodEnd := by
  unfold parseItemPpi at h
  split at h
  · cases h
  · split at h
    · cases h
    · split at h
      · cases h
      · split at h
        · cases h
        · split at h
          · cases h
          · rename_i t1 heq
            obtain ⟨ht, hm1, hm2⟩ := mkTimestampDay1_ok heq
            subst ht
            cases h
            exact monthEnd0_day1 hm1 hm2

theorem parseItemEmp_monthEnd {sid lab vtype : String} {item : DataItem} {r : EmpRow}
    (h : parseItemEmp sid lab vtype item = .ok (some r)) : isMonthEndStamp r.periodEnd := by
  unfold parseItemEmp at h
  split at h
  · cases h
  · split at h
    · cases h
    · split at h
      · cases h
      · split at h
        · cases h
        · split at h
          · cases h
          · rename_i t1 heq
            obtain ⟨ht, hm1, hm2⟩ := mkTimestampDay1_ok heq
            subst ht
            cases h
            exact monthEnd0_day1 hm1 hm2

theorem parseItemsCpi_mem {sid lab : String} :
    ∀ {its : List DataItem} {rows : List Row},
      parseItemsCpi sid lab its = .ok rows → ∀ r ∈ rows,
        ∃ it ∈ its, parseItemCpi sid lab it = .ok (some r)
  | [], rows, h, r, hr => by
      cases h
      cases hr
  | it :: its, rows, h, r, hr => by
      unfold parseItemsCpi at h
      split at h
      · cases h
      · rename_i heq
        obtain ⟨it2, hmem, hit⟩ := parseItemsCpi_mem h r hr
        exact ⟨it2, List.mem_cons_of_mem _ hmem, hit⟩
      · rename_i r0 heq
        split at h
        · cases h
        · rename_i rs hrest
          cases h
          rcases List.mem_cons.mp hr with hr | hr
          · subst hr
            exact ⟨it, List.mem_cons_self _ _, heq⟩
          · obtain ⟨it2, hmem, hit⟩ := parseItemsCpi_mem hrest r hr
            exact ⟨it2, List.mem_cons_of_mem _ hmem, hit⟩

theorem parseItemsPpi_mem {sid lab : String} :
    ∀ {its : List DataItem} {rows : List Row},
      parseItemsPpi sid lab its = .ok rows → ∀ r ∈ rows,
        ∃ it ∈ its, parseItemPpi sid lab it = .ok (some r)
  | [], rows, h, r, hr => by
      cases h
      cases hr
  | it :: its, rows, h, r, hr => by
      unfold parseItemsPpi at h
      split at h
      · cases h
      · rename_i heq
        obtain ⟨it2, hmem, hit⟩ := parseItemsPpi_mem h r hr
        exact ⟨it2, List.mem_cons_of_mem _ hmem, hit⟩
      · rename_i r0 heq
        split at h
        · cases h
        · rename_i rs hrest
          cases h
          rcases List.mem_cons.mp hr with hr | hr
          · subst hr
            exact ⟨it, List.mem_cons_self _ _, heq⟩
          · obtain ⟨it2, hmem, hit⟩ := parseItemsPpi_mem hrest r hr
            exact ⟨it2, List.mem_cons_of_mem _ hmem, hit⟩

theorem parseItemsEmp_mem {sid lab vtype : String} :
    ∀ {its : List DataItem} {rows : List EmpRow},
      parseItemsEmp sid lab vtype its = .ok rows → ∀ r ∈ rows,
        ∃ it ∈ its, parseItemEmp sid lab vtype it = .ok (some r)
  | [], rows, h, r, hr => by
      cases h
      cases hr
  | it :: its, rows, h, r, hr => by
      unfold parseItemsEmp at h
      split at h
      · cases h
      · rename_i heq
        obtain ⟨it2, hmem, hit⟩ := parseItemsEmp_mem h r hr
        exact ⟨it2, List.mem_cons_of_mem _ hmem, hit⟩
      · rename_i r0 heq
        split at h
        · cases h
        · rename_i rs hrest
          cases h
          rcases List.mem_cons.mp hr with hr | hr
          · subst hr
            exact ⟨it, List.mem_cons_self _ _, heq⟩
          · obtain ⟨it2, hmem, hit⟩ := parseItemsEmp_mem hrest r hr
            exact ⟨it2, List.mem_cons_of_mem _ hmem, hit⟩

theorem parseSeriesCpi_monthEnd {labels : List (String × String)} :
    ∀ {ss : List SeriesData} {rows : List Row},
      parseSeriesCpi labels ss = .ok rows → ∀ r ∈ rows, isMonthEndStamp r.periodEnd
  | [], rows, h, r, hr => by
      cases h
      cases hr
  | ts :: rest, rows, h, r, hr => by
      unfold parseSeriesCpi at h
      split at h
      · cases h
      · rename_i rows1 heq1
        split at h
        · cases h
        · rename_i more heq2
          cases h
          rcases List.mem_append.mp hr with hr | hr
          · obtain ⟨it, _, hit⟩ := parseItemsCpi_mem heq1 r hr
            exact parseItemCpi_monthEnd hit
          · exact parseSeriesCpi_monthEnd heq2 r hr

theorem parseSeriesPpi_monthEnd {labels : List (String × String)} :
    ∀ {ss : List SeriesData} {rows : List Row},
      parseSeriesPpi labels ss = .ok rows → ∀ r ∈ rows, isMonthEndStamp r.periodEnd
  | [], rows, h, r, hr => by
      cases h
      cases hr
  | ts :: rest, rows, h, r, hr => by
      unfold parseSeriesPpi at h
      split at h
      · cases h
      · rename_i rows1 heq1
        split at h
        · cases h
        · rename_i more heq2
          cases h
          rcases List.mem_append.mp hr with hr | hr
          · obtain ⟨it, _, hit⟩ := parseItemsPpi_mem heq1 r hr
            exact parseItemPpi_monthEnd hit
          · exact parseSeriesPpi_monthEnd heq2 r hr

theorem parseSeriesEmp_monthEnd {labels vtypes : List (String × String)} :
    ∀ {ss : List SeriesData} {rows : List EmpRow},
      parseSeriesEmp labels vtypes ss = .ok rows → ∀ r ∈ rows, isMonthEndStamp r.periodEnd
  | [], rows, h, r, hr => by
      cases h
      cases hr
  | ts :: rest, rows, h, r, hr => by
      unfold parseSeriesEmp at h
      split at h
      · cases h
      · rename_i rows1 heq1
        split at h
        · cases h
        · rename_i more heq2
          cases h
          rcases List.mem_append.mp hr with hr | hr
          · obtain ⟨it, _, hit⟩ := parseItemsEmp_mem heq1 r hr
            exact parseItemEmp_monthEnd hit
          · exact parseSeriesEmp_monthEnd heq2 r hr

theorem parse_bls_result_cpi_monthEnd {data : BlsBody} {labels : List (String × String)}
    {rows : List Row} (h : parse_bls_result_cpi data labels = .ok rows) :
    ∀ r ∈ rows, isMonthEndStamp r.periodEnd := by
  unfold parse_bls_result_cpi at h
  split at h
  · cases h
  · rename_i rows0 heq
    cases h
    intro r hr
    exact parseSeriesCpi_monthEnd heq r ((List.perm_insertionSort rowOrd rows0).mem_iff.mp hr)

theorem parse_bls_result_ppi_monthEnd {data : BlsBody} {labels : List (String × String)}
    {rows : List Row} (h : parse_bls_result_ppi data labels = .ok rows) :
    ∀ r ∈ rows, isMonthEndStamp r.periodEnd := by
  unfold parse_bls_result_ppi at h
  split at h
  · cases h
  · rename_i rows0 heq
    cases h
    intro r hr
    exact parseSeriesPpi_monthEnd heq r ((List.perm_insertionSort rowOrd rows0).mem_iff.mp hr)

theorem parse_bls_result_emp_monthEnd {data : BlsBody} {labels vtypes : List (String × String)}
    {rows : List EmpRow} (h : parse_bls_result_emp data labels vtypes = .ok rows) :
    ∀ r ∈ rows, isMonthEndStamp r.periodEnd := by
  unfold parse_bls_result_emp at h
  split at h
  · cases h
  · rename_i rows0 heq
    cases h
    intro r hr
    exact parseSeriesEmp_monthEnd heq r
      ((List.perm_insertionSort empRowOrd rows0).mem_iff.mp hr)

/-! ### Sortedness of parser output -/

/-- Two consecutive rows in (label, period-end) order: the first label
strictly precedes the second (Python string order), or the labels agree
and the period ends are non-decreasing. -/
def rowOrdered (a b : Row) : Prop :=
  pyStrLt a.label b.label = true ∨
  (a.label = b.label ∧ tsLe a.periodEnd b.periodEnd = true)

/-- The employment-variant version of `rowOrdered`. -/
def empRowOrdered (a b : EmpRow) : Prop :=
  pyStrLt a.label b.label = true ∨
  (a.label = b.label ∧ tsLe a.periodEnd b.periodEnd = true)

instance : DecidableRel rowOrdered := fun a b =>
  inferInstanceAs (Decidable (pyStrLt a.label b.label = true ∨
    (a.label = b.label ∧ tsLe a.periodEnd b.periodEnd = true)))

instance : DecidableRel empRowOrdered := fun a b =>
  inferInstanceAs (Decidable (pyStrLt a.label b.label = true ∨
    (a.label = b.label ∧ tsLe a.periodEnd b.periodEnd = true)))

theorem rowOrdered_of_rowLe {a b : Row} (h : rowLe a b = true) : rowOrdered a b := by
  unfold rowLe at h
  unfold rowOrdered
  by_cases hl : a.label = b.label
  · rw [if_pos hl] at h
    exact .inr ⟨hl, h⟩
  · rw [if_neg hl] at h
    exact .inl h

theorem empRowOrdered_of_empRowLe {a b : EmpRow} (h : empRowLe a b = true) :
    empRowOrdered a b := by
  unfold empRowLe at h
  unfold empRowOrdered
  by_cases hl : a.label = b.label
  · rw [if_pos hl] at h
    exact .inr ⟨hl, h⟩
  · rw [if_neg hl] at h
    exact .inl h

theorem parse_bls_result_cpi_sorted {data : BlsBody} {labels : List (String × String)}
    {rows : List Row} (h : parse_bls_result_cpi data labels = .ok rows) :
    List.Chain' rowOrdered rows := by
  unfold parse_bls_result_cpi at h
  split at h
  · cases h
  · cases h
    exact ((List.sorted_insertionSort rowOrd _).imp
      (fun hab => rowOrdered_of_rowLe hab)).chain'

theorem parse_bls_result_ppi_sorted {data : BlsBody} {labels : List (String × String)}
    {rows : List Row} (h : parse_bls_result_ppi data labels = .ok rows) :
    List.Chain' rowOrdered rows := by
  unfold parse_bls_result_ppi at h
  split at h
  · cases h
  · cases h
    exact ((List.sorted_insertionSort rowOrd _).imp
      (fun hab => rowOrdered_of_rowLe hab)).chain'

theorem parse_bls_result_emp_sorted {data : BlsBody} {labels vtypes : List (String × String)}
    {rows : List EmpRow} (h : parse_bls_result_emp data labels vtypes = .ok rows) :
    List.Chain' empRowOrdered rows := by
  unfold parse_bls_result_emp at h
  split at h
  · cases h
  · cases h
    exact ((List.sorted_insertionSort empRowOrd _).imp
      (fun hab => empRowOrdered_of_empRowLe hab)).chain'

/-! ### Indexed access into the change columns -/

theorem shiftCol_length (k : Nat) (col : List PdVal) :
    (shiftCol k col).length = col.length := by
  simp [shiftCol]

theorem pctChangeCol_length (lag : Nat) (col : List PdVal) :
    (pctChangeCol lag col).length = col.length := by
  simp [pctChangeCol, shiftCol]

theorem diffChangeCol_length (lag : Nat) (col : List PdVal) :
    (diffChangeCol lag col).length = col.length := by
  simp [diffChangeCol, shiftCol]

theorem shiftCol_get (k : Nat) (col : List PdVal) (i : Nat) (hi : i < col.length) :
    (shiftCol k col).get ⟨i, by rw [shiftCol_length]; exact hi⟩ =
      if i < k then PdVal.nan else col.get ⟨i - k, by omega⟩ := by
  simp only [List.get_eq_getElem, shiftCol]
  rw [List.getElem_take]
  by_cases h : i < k
  · rw [if_pos h]
    rw [List.getElem_append_left (by simpa using h)]
    exact List.getElem_replicate _ _
  · rw [if_neg h]
    rw [List.getElem_append_right (by simpa using h)]
    simp

theorem pctChangeCol_get (lag : Nat) (col : List PdVal) (i : Nat) (hi : i < col.length) :
    (pctChangeCol lag col).get ⟨i, by rw [pctChangeCol_length]; exact hi⟩ =
      pdMul (pdSub (pdDiv (col.get ⟨i, hi⟩)
        (if i < lag then PdVal.nan else col.get ⟨i - lag, by omega⟩)) (.num 1)) (.num 100) := by
  have hs := shiftCol_get lag col i hi
  simp only [List.get_eq_getElem] at hs ⊢
  simp only [pctChangeCol, List.getElem_map, List.getElem_zip]
  rw [hs]

theorem diffChangeCol_get (lag : Nat) (col : List PdVal) (i : Nat) (hi : i < col.length) :
    (diffChangeCol lag col).get ⟨i, by rw [diffChangeCol_length]; exact hi⟩ =
      pdSub (col.get ⟨i, hi⟩)
        (if i < lag then PdVal.nan else col.get ⟨i - lag, by omega⟩) := by
  have hs := shiftCol_get lag col i hi
  simp only [List.get_eq_getElem] at hs ⊢
  simp only [diffChangeCol, List.getElem_map, List.getElem_zip]
  rw [hs]

/-! ### Evaluating the retry loop -/

theorem callBlsFrom_ok {oracle : Nat → AttemptOutcome} {a : Nat} {s : ℚ} {d : BlsBody}
    (h : attemptEval (oracle a) = .ok d) : callBlsFrom oracle a s = (.ok d, s) := by
  rw [callBlsFrom, h]

theorem callBlsFrom_step {oracle : Nat → AttemptOutcome} {a : Nat} {s : ℚ} {e : PyError}
    (h : attemptEval (oracle a) = .error e) (ha : a < RETRIES) :
    callBlsFrom oracle a s = callBlsFrom oracle (a + 1) (s + BACKOFF ^ a) := by
  rw [callBlsFrom, h]
  exact dif_pos ha

theorem callBlsFrom_last {oracle : Nat → AttemptOutcome} {a : Nat} {s : ℚ} {e : PyError}
    (h : attemptEval (oracle a) = .error e) (ha : ¬ a < RETRIES) :
    callBlsFrom oracle a s = (.error e, s) := by
  rw [callBlsFrom, h]
  exact dif_neg ha

theorem call_bls_ok1 {oracle : Nat → AttemptOutcome} {d : BlsBody}
    (h1 : attemptEval (oracle 1) = .ok d) : call_bls oracle = (.ok d, 0) := by
  unfold call_bls
  rw [callBlsFrom_ok h1]

theorem call_bls_ok2 {oracle : Nat → AttemptOutcome} {e1 : PyError} {d : BlsBody}
    (h1 : attemptEval (oracle 1) = .error e1) (h2 : attemptEval (oracle 2) = .ok d) :
    call_bls oracle = (.ok d, BACKOFF ^ 1) := by
  unfold call_bls
  rw [callBlsFrom_step h1 (by norm_num [RETRIES]), callBlsFrom_ok h2]
  norm_num

theorem call_bls_ok3 {oracle : Nat → AttemptOutcome} {e1 e2 : PyError} {d : BlsBody}
    (h1 : attemptEval (oracle 1) = .error e1) (h2 : attemptEval (oracle 2) = .error e2)
    (h3 : attemptEval (oracle 3) = .ok d) :
    call_bls oracle = (.ok d, BACKOFF ^ 1 + BACKOFF ^ 2) := by
  unfold call_bls
  rw [callBlsFrom_step h1 (by norm_num [RETRIES]), callBlsFrom_step h2 (by norm_num [RETRIES]),
    callBlsFrom_ok h3]
  norm_num

theorem call_bls_allfail {oracle : Nat → AttemptOutcome} {e1 e2 e3 : PyError}
    (h1 : attemptEval (oracle 1) = .error e1) (h2 : attemptEval (oracle 2) = .error e2)
    (h3 : attemptEval (oracle 3) = .error e3) :
    call_bls oracle = (.error e3, BACKOFF ^ 1 + BACKOFF ^ 2) := by
  unfold call_bls
  rw [callBlsFrom_step h1 (by norm_num [RETRIES]), callBlsFrom_step h2 (by norm_num [RETRIES]),
    callBlsFrom_last h3 (by norm_num [RETRIES])]
  norm_num

/-! ### Properties of `chunked` -/

theorem chunked_sizes {α : Type} (n : Nat) :
    ∀ (l : List α) (b : List α), b ∈ chunked l n → b.length ≤ n
  | [], b, h => by simp [chunked] at h
  | x :: xs, b, h => by
      simp only [chunked] at h
      rcases List.mem_cons.mp h with h | h
      · subst h
        simp [List.length_take]
      · exact chunked_sizes n (xs.drop (n - 1)) b h
termination_by l => l.length
decreasing_by simp; omega

theorem chunked_flatten {α : Type} (m : Nat) : ∀ (l : List α), (chunked l (m + 1)).flatten = l
  | [] => by simp [chunked]
  | x :: xs => by
      have hstep : chunked (x :: xs) (m + 1) =
          (x :: xs).take (m + 1) :: chunked (xs.drop m) (m + 1) := by
        simp [chunked]
      rw [hstep, List.flatten_cons, chunked_flatten m (xs.drop m), List.take_succ_cons,
        List.cons_append, List.take_append_drop]
termination_by l => l.length
decreasing_by simp; omega

/-- C7: partitioning any identifier list into batches (`chunked(series_ids,
50)`, `export_cpi_details.py` lines 60–63 and 153–159) yields batches of
size at most 50 whose in-order concatenation is exactly the original
sequence. -/
theorem C7_chunked_partition (l : List String) :
    (∀ b ∈ chunked l 50, b.length ≤ 50) ∧ (chunked l 50).flatten = l :=
  ⟨fun b hb => chunked_sizes 50 l b hb, chunked_flatten 49 l⟩

/-- Witness for C7 at a concrete catalog. -/
theorem C7_chunked_partition_witness :
    ["CUSR0000SA0", "CUSR0000SA0L1E"] ∈ chunked ["CUSR0000SA0", "CUSR0000SA0L1E"] 50 ∧
    (["CUSR0000SA0", "CUSR0000SA0L1E"] : List String).length ≤ 50 ∧
    (chunked ["CUSR0000SA0", "CUSR0000SA0L1E"] 50).flatten =
      ["CUSR0000SA0", "CUSR0000SA0L1E"] :=
  ⟨by simp [chunked],
    (C7_chunked_partition ["CUSR0000SA0", "CUSR0000SA0L1E"]).1
      ["CUSR0000SA0", "CUSR0000SA0L1E"] (by simp [chunked]),
    (C7_chunked_partition ["CUSR0000SA0", "CUSR0000SA0L1E"]).2⟩

/-! ### Concrete response fixtures -/

/-- Twelve monthly records `M01`..`M12` plus one `"M13"` annual-average
record, all for the same year — the scenario of the spec. -/
def itemsWithM13 : List DataItem :=
  [⟨"2023", "M01", "100"⟩, ⟨"2023", "M02", "101"⟩, ⟨"2023", "M03", "102"⟩,
   ⟨"2023", "M04", "103"⟩, ⟨"2023", "M05", "104"⟩, ⟨"2023", "M06", "105"⟩,
   ⟨"2023", "M07", "106"⟩, ⟨"2023", "M08", "107"⟩, ⟨"2023", "M09", "108"⟩,
   ⟨"2023", "M10", "109"⟩, ⟨"2023", "M11", "110"⟩, ⟨"2023", "M12", "111"⟩,
   ⟨"2023", "M13", "105"⟩]

/-- A successful response carrying `itemsWithM13` for one series. -/
def bodyWithM13 : BlsBody :=
  ⟨"REQUEST_SUCCEEDED", none, [⟨"CUSR0000SA0", itemsWithM13⟩]⟩

/-- The CPI script's label lookup for that series. -/
def labelsCpi : List (String × String) := [("CUSR0000SA0", "All items (SA)")]

/-- C1: the claim says every parser variant drops `"M13"` and produces
exactly twelve records.  Only the PPI variant does; the CPI (and
employment) variants test just `period.startswith("M")` — their own inline
comments say "skip annual averages like M13", but `"M13"` passes the test,
`month` becomes 13 and `pd.Timestamp(year, 13, 1)` raises `ValueError`,
aborting the run instead of dropping the record.  This theorem evaluates
both parsers at the spec's scenario input. -/
theorem C1_m13_cpi_crashes_ppi_drops :
    parse_bls_result_cpi bodyWithM13 labelsCpi =
      .error (.valueError "month must be in 1..12") ∧
    parse_bls_result_emp bodyWithM13 labelsCpi [("CUSR0000SA0", "level")] =
      .error (.valueError "month must be in 1..12") ∧
    (parse_bls_result_ppi bodyWithM13 labelsCpi).map List.length = .ok 12 :=
  ⟨rfl, rfl, rfl⟩

/-- A January-2000 observation as the parser stamps it: midnight of the
month's last day. -/
def janRow2000 : Row := ⟨"CUSR0000SA0", "All items (SA)", ⟨⟨2000, 1, 31⟩, 0⟩, 1⟩

/-- A February-2000 observation (midnight of 2000-02-29). -/
def febRow2000 : Row := ⟨"CUSR0000SA0", "All items (SA)", ⟨⟨2000, 2, 29⟩, 0⟩, 1⟩

/-- C2: with `START = "2000-01"`, the start cut is the LAST nanosecond of
2000-01-31 (`pd.Period(...).to_timestamp(how="end")`), while every parsed
record's `PeriodEnd` is MIDNIGHT of its month's last day — so the filter
`PeriodEnd >= start_cut` drops the records of the start month itself,
against both the claim and the scripts' own comment (cut to the
START–END month range).  Later months pass, and the end cut keeps the
end month.  (The PPI variant, additionally, has no month-window filter at
all.) -/
theorem C2_window_drops_start_month :
    monthEnd0 ⟨⟨2000, 1, 1⟩, 0⟩ = janRow2000.periodEnd ∧
    periodToTimestampEnd 2000 1 = ⟨⟨2000, 1, 31⟩, nsPerDay - 1⟩ ∧
    windowFilter [janRow2000] (2000, 1) none = [] ∧
    windowFilter [febRow2000] (2000, 1) none = [febRow2000] ∧
    windowFilter [janRow2000, febRow2000] (2000, 1) (some (2000, 2)) = [febRow2000] :=
  ⟨rfl, rfl, rfl, rfl, rfl⟩

/-- A shared period-end stamp for the collision scenario. -/
def dupStamp : Timestamp := ⟨⟨2020, 1, 31⟩, 0⟩

/-- Two distinct records colliding on the same `(PeriodEnd, label)` key. -/
def collideA : Row := ⟨"A1", "Dup label", dupStamp, 1⟩

/-- The second colliding record, with a different value. -/
def collideB : Row := ⟨"B1", "Dup label", dupStamp, 3⟩

/-- C3 counterexample: on two records colliding on `(PeriodEnd, label)`
with values 1 and 3, `pivot_table` (default `aggfunc`) produces their
MEAN, 2 — a value equal to neither input — and raises nothing; no
`DataFormatError` (or any error) exists at the pivot step of any script. -/
theorem C3_counterexample_pivot_mean :
    collideA ≠ collideB ∧
    collideA.periodEnd = collideB.periodEnd ∧ collideA.label = collideB.label ∧
    pivotCell [collideA, collideB] dupStamp "Dup label" = .num 2 ∧
    PdVal.num 2 ≠ .num collideA.value ∧ PdVal.num 2 ≠ .num collideB.value := by
  refine ⟨by decide, rfl, rfl, ?_, by decide, by decide⟩
  have h : pivotCell [collideA, collideB] dupStamp "Dup label" =
      .num (((1 : ℚ) + (3 + 0)) / ((2 : Nat) : ℚ)) := rfl
  rw [h]
  norm_num

/-- C3 amended: when exactly two records collide on a `(period_end,
label)` key, the pivot cell is the arithmetic mean of their two values —
the collision is merged silently (pandas `pivot_table` default
aggregation), and no error of any kind is raised. -/
theorem C3_amended_pivot_mean (rows : List Row) (t : Timestamp) (lab : String) (a b : ℚ)
    (h : (rows.filter (fun r => r.periodEnd = t && r.label = lab)).map Row.value = [a, b]) :
    pivotCell rows t lab = .num ((a + b) / 2) := by
  unfold pivotCell
  rw [h]
  show PdVal.num ((a + (b + 0)) / ((2 : Nat) : ℚ)) = .num ((a + b) / 2)
  norm_num

/-- Witness for C3's amended theorem at the concrete colliding input. -/
theorem C3_amended_pivot_mean_witness :
    ([collideA, collideB].filter
      (fun r => r.periodEnd = dupStamp && r.label = "Dup label")).map Row.value = [1, 3] ∧
    pivotCell [collideA, collideB] dupStamp "Dup label" = .num ((1 + 3) / 2) :=
  ⟨rfl, C3_amended_pivot_mean [collideA, collideB] dupStamp "Dup label" 1 3 rfl⟩

/-- Holds exactly when a computation raised (its exception propagates and
aborts the run). -/
def isErr {α : Type} : Except PyError α → Bool
  | .error _ => true
  | .ok _ => false

theorem parseItemsCpi_err {sid lab : String} :
    ∀ {its : List DataItem} (it : DataItem), it ∈ its →
      isErr (parseItemCpi sid lab it) = true → isErr (parseItemsCpi sid lab its) = true
  | [], it, h, _ => absurd h (List.not_mem_nil it)
  | i0 :: its, it, h, herr => by
      rcases List.mem_cons.mp h with rfl | h
      · cases hpe : parseItemCpi sid lab it with
        | error e => simp [parseItemsCpi, hpe, isErr]
        | ok v =>
            rw [hpe] at herr
            simp [isErr] at herr
      · have ih := parseItemsCpi_err it h herr
        cases hpe : parseItemCpi sid lab i0 with
        | error e => simp [parseItemsCpi, hpe, isErr]
        | ok v =>
            cases v with
            | none => simpa [parseItemsCpi, hpe] using ih
            | some r =>
                cases hrest : parseItemsCpi sid lab its with
                | error e => simp [parseItemsCpi, hpe, hrest, isErr]
                | ok rs =>
                    rw [hrest] at ih
                    simp [isErr] at ih

theorem parseItemsPpi_err {sid lab : String} :
    ∀ {its : List DataItem} (it : DataItem), it ∈ its →
      isErr (parseItemPpi sid lab it) = true → isErr (parseItemsPpi sid lab its) = true
  | [], it, h, _ => absurd h (List.not_mem_nil it)
  | i0 :: its, it, h, herr => by
      rcases List.mem_cons.mp h with rfl | h
      · cases hpe : parseItemPpi sid lab it with
        | error e => simp [parseItemsPpi, hpe, isErr]
        | ok v =>
            rw [hpe] at herr
            simp [isErr] at herr
      · have ih := parseItemsPpi_err it h herr
        cases hpe : parseItemPpi sid lab i0 with
        | error e => simp [parseItemsPpi, hpe, isErr]
        | ok v =>
            cases v with
            | none => simpa [parseItemsPpi, hpe] using ih
            | some r =>
                cases hrest : parseItemsPpi sid lab its with
                | error e => simp [parseItemsPpi, hpe, hrest, isErr]
                | ok rs =>
                    rw [hrest] at ih
                    simp [isErr] at ih

theorem parseItemsEmp_err {sid lab vtype : String} :
    ∀ {its : List DataItem} (it : DataItem), it ∈ its →
      isErr (parseItemEmp sid lab vtype it) = true →
      isErr (parseItemsEmp sid lab vtype its) = true
  | [], it, h, _ => absurd h (List.not_mem_nil it)
  | i0 :: its, it, h, herr => by
      rcases List.mem_cons.mp h with rfl | h
      · cases hpe : parseItemEmp sid lab vtype it with
        | error e => simp [parseItemsEmp, hpe, isErr]
        | ok v =>
            rw [hpe] at herr
            simp [isErr] at herr
      · have ih := parseItemsEmp_err it h herr
        cases hpe : parseItemEmp sid lab vtype i0 with
        | error e => simp [parseItemsEmp, hpe, isErr]
        | ok v =>
            cases v with
            | none => simpa [parseItemsEmp, hpe] using ih
            | some r =>
                cases hrest : parseItemsEmp sid lab vtype its with
                | error e => simp [parseItemsEmp, hpe, hrest, isErr]
                | ok rs =>
                    rw [hrest] at ih
                    simp [isErr] at ih

theorem parseSeriesCpi_err {labels : List (String × String)} :
    ∀ {ss : List SeriesData} (ts : SeriesData), ts ∈ ss →
      isErr (parseItemsCpi ts.seriesID (lookupDefault labels ts.seriesID) ts.data) = true →
      isErr (parseSeriesCpi labels ss) = true
  | [], ts, h, _ => absurd h (List.not_mem_nil ts)
  | t0 :: ss, ts, h, herr => by
      rcases List.mem_cons.mp h with rfl | h
      · cases hpe : parseItemsCpi ts.seriesID (lookupDefault labels ts.seriesID) ts.data with
        | error e => simp [parseSeriesCpi, hpe, isErr]
        | ok v =>
            rw [hpe] at herr
            simp [isErr] at herr
      · have ih := parseSeriesCpi_err ts h herr
        cases hpe : parseItemsCpi t0.seriesID (lookupDefault labels t0.seriesID) t0.data with
        | error e => simp [parseSeriesCpi, hpe, isErr]
        | ok v =>
            cases hrest : parseSeriesCpi labels ss with
            | error e => simp [parseSeriesCpi, hpe, hrest, isErr]
            | ok rs =>
                rw [hrest] at ih
                simp [isErr] at ih

theorem parseSeriesPpi_err {labels : List (String × String)} :
    ∀ {ss : List SeriesData} (ts : SeriesData), ts ∈ ss →
      isErr (parseItemsPpi ts.seriesID (lookupDefault labels ts.seriesID) ts.data) = true →
      isErr (parseSeriesPpi labels ss) = true
  | [], ts, h, _ => absurd h (List.not_mem_nil ts)
  | t0 :: ss, ts, h, herr => by
      rcases List.mem_cons.mp h with rfl | h
      · cases hpe : parseItemsPpi ts.seriesID (lookupDefault labels ts.seriesID) ts.data with
        | error e => simp [parseSeriesPpi, hpe, isErr]
        | ok v =>
            rw [hpe] at herr
            simp [isErr] at herr
      · have ih := parseSeriesPpi_err ts h herr
        cases hpe : parseItemsPpi t0.seriesID (lookupDefault labels t0.seriesID) t0.data with
        | error e => simp [parseSeriesPpi, hpe, isErr]
        | ok v =>
            cases hrest : parseSeriesPpi labels ss with
            | error e => simp [parseSeriesPpi, hpe, hrest, isErr]
            | ok rs =>
                rw [hrest] at ih
                simp [isErr] at ih

theorem parse_bls_result_cpi_isErr (data : BlsBody) (labels : List (String × String)) :
    isErr (parse_bls_result_cpi data labels) = isErr (parseSeriesCpi labels data.series) := by
  unfold parse_bls_result_cpi
  cases parseSeriesCpi labels data.series <;> rfl

theorem parse_bls_result_ppi_isErr (data : BlsBody) (labels : List (String × String)) :
    isErr (parse_bls_result_ppi data labels) = isErr (parseSeriesPpi labels data.series) := by
  unfold parse_bls_result_ppi
  cases parseSeriesPpi labels data.series <;> rfl

theorem parseSeriesEmp_err {labels vtypes : List (String × String)} :
    ∀ {ss : List SeriesData} (ts : SeriesData), ts ∈ ss →
      isErr (parseItemsEmp ts.seriesID (lookupDefault labels ts.seriesID)
        (match vtypes.find? (fun p => p.1 = ts.seriesID) with
         | some p => p.2
         | none => "level") ts.data) = true →
      isErr (parseSeriesEmp labels vtypes ss) = true
  | [], ts, h, _ => absurd h (List.not_mem_nil ts)
  | t0 :: ss, ts, h, herr => by
      rcases List.mem_cons.mp h with rfl | h
      · cases hpe : parseItemsEmp ts.seriesID (lookupDefault labels ts.seriesID)
            (match vtypes.find? (fun p => p.1 = ts.seriesID) with
             | some p => p.2
             | none => "level") ts.data with
        | error e => simp [parseSeriesEmp, hpe, isErr]
        | ok v =>
            rw [hpe] at herr
            simp [isErr] at herr
      · have ih := parseSeriesEmp_err ts h herr
        cases hpe : parseItemsEmp t0.seriesID (lookupDefault labels t0.seriesID)
            (match vtypes.find? (fun p => p.1 = t0.seriesID) with
             | some p => p.2
             | none => "level") t0.data with
        | error e => simp [parseSeriesEmp, hpe, isErr]
        | ok v =>
            cases hrest : parseSeriesEmp labels vtypes ss with
            | error e => simp [parseSeriesEmp, hpe, hrest, isErr]
            | ok rs =>
                rw [hrest] at ih
                simp [isErr] at ih

theorem parse_bls_result_emp_isErr (data : BlsBody) (labels vtypes : List (String × String)) :
    isErr (parse_bls_result_emp data labels vtypes) =
      isErr (parseSeriesEmp labels vtypes data.series) := by
  unfold parse_bls_result_emp
  cases parseSeriesEmp labels vtypes data.series <;> rfl

theorem parseItemCpi_float_err {sid lab : String} {it : DataItem} {y m : Int}
    (hp : startsWithM it.period = true) (hy : pyIntOfString it.year = some y)
    (hm : pyIntOfString (dropFirstChar it.period) = some m)
    (hv : pyFloatOfString (stripCommas it.value) = none) :
    parseItemCpi sid lab it =
      .error (.valueError ("could not convert string to float: " ++ stripCommas it.value)) := by
  simp [parseItemCpi, hp, hy, hm, hv]

theorem parseItemPpi_float_err {sid lab : String} {it : DataItem} {y m : Int}
    (hp : startsWithM it.period = true) (hp13 : it.period ≠ "M13")
    (hy : pyIntOfString it.year = some y)
    (hm : pyIntOfString (dropFirstChar it.period) = some m)
    (hv : pyFloatOfString it.value = none) :
    parseItemPpi sid lab it =
      .error (.valueError ("could not convert string to float: " ++ it.value)) := by
  simp [parseItemPpi, hp, hp13, hy, hm, hv]

theorem parseItemEmp_float_err {sid lab vtype : String} {it : DataItem} {y m : Int}
    (hp : startsWithM it.period = true) (hy : pyIntOfString it.year = some y)
    (hm : pyIntOfString (dropFirstChar it.period) = some m)
    (hv : pyFloatOfString (stripCommas it.value) = none) :
    parseItemEmp sid lab vtype it =
      .error (.valueError ("could not convert string to float: " ++ stripCommas it.value)) := by
  simp [parseItemEmp, hp, hy, hm, hv]

/-- One series with a grouped value string `"1,234.5"`. -/
def commaBody : BlsBody :=
  ⟨"REQUEST_SUCCEEDED", none, [⟨"S1", [⟨"2020", "M01", "1,234.5"⟩]⟩]⟩

/-- C4 counterexample: the claim says every variant strips grouping
commas before `float()`, so `"1,234.5"` parses successfully in all of
them; but `export_ppi_details.py` line 109 calls `float(item["value"])`
without stripping, so its run aborts with a `ValueError` on this value. -/
theorem C4_counterexample_ppi_comma :
    parse_bls_result_ppi commaBody [] =
      .error (.valueError "could not convert string to float: 1,234.5") := rfl

/-- C4 amended: the CPI and employment parsers strip grouping commas
before `float()` and turn `"1,234.5"` into the number 1234.5, while the
PPI parser applies `float()` directly and aborts on that string; in every
variant, a value string that (after the variant's preprocessing) fails to
parse raises and so aborts the whole run rather than being individually
skipped. -/
theorem C4_amended_value_parsing :
    pyFloatOfString "1,234.5" = none ∧
    pyFloatOfString (stripCommas "1,234.5") = some (1234.5 : ℚ) ∧
    (parse_bls_result_cpi commaBody []).map (List.map Row.value) = .ok [(1234.5 : ℚ)] ∧
    (parse_bls_result_emp commaBody [] []).map (List.map EmpRow.value) = .ok [(1234.5 : ℚ)] ∧
    isErr (parse_bls_result_ppi commaBody []) = true ∧
    (∀ (sid lab : String) (it : DataItem) (y m : Int),
      startsWithM it.period = true → pyIntOfString it.year = some y →
      pyIntOfString (dropFirstChar it.period) = some m →
      pyFloatOfString (stripCommas it.value) = none →
      isErr (parseItemCpi sid lab it) = true) ∧
    (∀ (sid lab : String) (it : DataItem) (y m : Int),
      startsWithM it.period = true → it.period ≠ "M13" → pyIntOfString it.year = some y →
      pyIntOfString (dropFirstChar it.period) = some m →
      pyFloatOfString it.value = none →
      isErr (parseItemPpi sid lab it) = true) ∧
    (∀ (sid lab vtype : String) (it : DataItem) (y m : Int),
      startsWithM it.period = true → pyIntOfString it.year = some y →
      pyIntOfString (dropFirstChar it.period) = some m →
      pyFloatOfString (stripCommas it.value) = none →
      isErr (parseItemEmp sid lab vtype it) = true) ∧
    (∀ (data : BlsBody) (labels : List (String × String)) (ts : SeriesData) (it : DataItem),
      ts ∈ data.series → it ∈ ts.data →
      isErr (parseItemCpi ts.seriesID (lookupDefault labels ts.seriesID) it) = true →
      isErr (parse_bls_result_cpi data labels) = true) ∧
    (∀ (data : BlsBody) (labels : List (String × String)) (ts : SeriesData) (it : DataItem),
      ts ∈ data.series → it ∈ ts.data →
      isErr (parseItemPpi ts.seriesID (lookupDefault labels ts.seriesID) it) = true →
      isErr (parse_bls_result_ppi data labels) = true) := by
  refine ⟨rfl, ?_, ?_, ?_, rfl, ?_, ?_, ?_, ?_, ?_⟩
  · have h : pyFloatOfString (stripCommas "1,234.5") =
        some (((1234 : Nat) : ℚ) + ((5 : Nat) : ℚ) / 10 ^ 1) := rfl
    rw [h]
    norm_num
  · have h : (parse_bls_result_cpi commaBody []).map (List.map Row.value) =
        .ok [((1234 : Nat) : ℚ) + ((5 : Nat) : ℚ) / 10 ^ 1] := rfl
    rw [h]
    norm_num
  · have h : (parse_bls_result_emp commaBody [] []).map (List.map EmpRow.value) =
        .ok [((1234 : Nat) : ℚ) + ((5 : Nat) : ℚ) / 10 ^ 1] := rfl
    rw [h]
    norm_num
  · intro sid lab it y m hp hy hm hv
    rw [parseItemCpi_float_err hp hy hm hv]
    rfl
  · intro sid lab it y m hp hp13 hy hm hv
    rw [parseItemPpi_float_err hp hp13 hy hm hv]
    rfl
  · intro sid lab vtype it y m hp hy hm hv
    rw [parseItemEmp_float_err hp hy hm hv]
    rfl
  · intro data labels ts it hts hit herr
    rw [parse_bls_result_cpi_isErr]
    exact parseSeriesCpi_err ts hts (parseItemsCpi_err it hit herr)
  · intro data labels ts it hts hit herr
    rw [parse_bls_result_ppi_isErr]
    exact parseSeriesPpi_err ts hts (parseItemsPpi_err it hit herr)

/-- Witness for C4's amended theorem: the run-abort conjunct applied at
the concrete comma-valued response. -/
theorem C4_amended_value_parsing_witness :
    (⟨"S1", [⟨"2020", "M01", "1,234.5"⟩]⟩ : SeriesData) ∈ commaBody.series ∧
    (⟨"2020", "M01", "1,234.5"⟩ : DataItem) ∈
      (⟨"S1", [⟨"2020", "M01", "1,234.5"⟩]⟩ : SeriesData).data ∧
    isErr (parseItemPpi "S1" (lookupDefault [] "S1") ⟨"2020", "M01", "1,234.5"⟩) = true ∧
    isErr (parse_bls_result_ppi commaBody []) = true :=
  ⟨by decide, by decide, rfl,
    C4_amended_value_parsing.2.2.2.2.2.2.2.2.2 commaBody []
      ⟨"S1", [⟨"2020", "M01", "1,234.5"⟩]⟩ ⟨"2020", "M01", "1,234.5"⟩
      (by decide) (by decide) rfl⟩

/-- C5 counterexample: a pivot column `[0, 5]` gives a MoM% entry of
`+inf` at the second row — a NON-null infinite value (pandas `isna` is
false on `inf`), where the claim requires null. -/
theorem C5_counterexample_zero_gives_inf :
    pctChangeCol 1 [PdVal.num 0, PdVal.num 5] = [PdVal.nan, PdVal.pinf] ∧
    PdVal.pinf ≠ PdVal.nan := by decide

/-- C5 amended: when the lag reference `value[t-lag]` is exactly 0, the
percent-change entry is `+inf` when `value[t] > 0`, `-inf` when
`value[t] < 0`, and `NaN` only when `value[t] = 0`; the point-difference
entry is simply `value[t] - 0`.  No error is raised in either case, and
the entry is null (`NaN`) only in the `value[t] = 0` case. -/
theorem C5_amended_zero_lag_reference :
    (∀ (lag : Nat) (col : List PdVal) (i : Nat) (hi : i < col.length) (a : ℚ),
      lag ≤ i → col.get ⟨i - lag, by omega⟩ = .num 0 → col.get ⟨i, hi⟩ = .num a →
      (pctChangeCol lag col).get ⟨i, by rw [pctChangeCol_length]; exact hi⟩ =
        (if 0 < a then PdVal.pinf else if a < 0 then PdVal.ninf else PdVal.nan)) ∧
    (∀ (lag : Nat) (col : List PdVal) (i : Nat) (hi : i < col.length) (a : ℚ),
      lag ≤ i → col.get ⟨i - lag, by omega⟩ = .num 0 → col.get ⟨i, hi⟩ = .num a →
      (diffChangeCol lag col).get ⟨i, by rw [diffChangeCol_length]; exact hi⟩ =
        .num (a - 0)) := by
  constructor
  · intro lag col i hi a hlag h0 ha
    rw [pctChangeCol_get lag col i hi, if_neg (by omega), h0, ha]
    have hdiv : pdDiv (.num a) (.num 0) =
        if 0 < a then PdVal.pinf else if a < 0 then PdVal.ninf else PdVal.nan := by
      show (if (0 : ℚ) = 0
        then (if 0 < a then PdVal.pinf else if a < 0 then PdVal.ninf else PdVal.nan)
        else PdVal.num (a / 0)) = _
      rw [if_pos rfl]
    rw [hdiv]
    rcases lt_trichotomy 0 a with h | h | h
    · rw [if_pos h]
      decide
    · subst h
      rw [if_neg (lt_irrefl 0)]
      rw [if_neg (lt_irrefl 0)]
      decide
    · rw [if_neg (lt_asymm h), if_pos h]
      decide
  · intro lag col i hi a hlag h0 ha
    rw [diffChangeCol_get lag col i hi, if_neg (by omega), h0, ha]
    rfl

/-- Witness for C5's amended theorem at the concrete column `[0, 5]`. -/
theorem C5_amended_zero_lag_reference_witness :
    (1 : Nat) ≤ 1 ∧
    ([PdVal.num 0, PdVal.num 5].get ⟨0, by decide⟩ = PdVal.num 0) ∧
    ([PdVal.num 0, PdVal.num 5].get ⟨1, by decide⟩ = PdVal.num 5) ∧
    (pctChangeCol 1 [PdVal.num 0, PdVal.num 5]).get ⟨1, by decide⟩ =
      (if (0 : ℚ) < 5 then PdVal.pinf else if (5 : ℚ) < 0 then PdVal.ninf else PdVal.nan) ∧
    (if (0 : ℚ) < 5 then PdVal.pinf else if (5 : ℚ) < 0 then PdVal.ninf else PdVal.nan) =
      PdVal.pinf :=
  ⟨by decide, rfl, rfl,
    C5_amended_zero_lag_reference.1 1 [PdVal.num 0, PdVal.num 5] 1 (by decide) 5
      (by decide) rfl rfl,
    by decide⟩

/-- C9: for every pivot column declared `kind=rate`, `build_changes` puts
its lag-1 and lag-12 POINT differences (never a percent-of-percent) into
the `MoM_pp_rate` / `YoY_pp_rate` tables; each defined entry is exactly
`value[t] - value[t-lag]`, and on the spec's scenario `[4.0, 4.2, 4.1]`
the MoM_pp column is `[null, 0.2, -0.1]`. -/
theorem C9_rate_point_differences :
    (∀ (cols : List LabeledCol) (c : LabeledCol), c ∈ cols → c.vtype = "rate" →
      (c.label, diffChangeCol 1 c.col) ∈ momPpRate cols ∧
      (c.label, diffChangeCol 12 c.col) ∈ yoyPpRate cols) ∧
    (∀ (lag : Nat) (col : List PdVal) (i : Nat) (hi : i < col.length) (a b : ℚ),
      lag ≤ i → col.get ⟨i, hi⟩ = .num a → col.get ⟨i - lag, by omega⟩ = .num b →
      (diffChangeCol lag col).get ⟨i, by rw [diffChangeCol_length]; exact hi⟩ =
        .num (a - b)) ∧
    diffChangeCol 1 [PdVal.num 4, PdVal.num 4.2, PdVal.num 4.1] =
      [PdVal.nan, PdVal.num 0.2, PdVal.num (-0.1)] := by
  refine ⟨?_, ?_, ?_⟩
  · intro cols c hc hr
    constructor
    · exact List.mem_map_of_mem _ (List.mem_filter.mpr ⟨hc, by simp [hr]⟩)
    · exact List.mem_map_of_mem _ (List.mem_filter.mpr ⟨hc, by simp [hr]⟩)
  · intro lag col i hi a b hlag ha hb
    rw [diffChangeCol_get lag col i hi, if_neg (by omega), ha, hb]
    rfl
  · have h : diffChangeCol 1 [PdVal.num 4, PdVal.num 4.2, PdVal.num 4.1] =
        [PdVal.nan, PdVal.num (4.2 - 4), PdVal.num (4.1 - 4.2)] := rfl
    rw [h]
    norm_num

/-- A concrete rate-kind column (the unemployment-rate scenario). -/
def rateCol : LabeledCol :=
  ⟨"Unemployment Rate (%, SA)", "rate", [PdVal.num 4, PdVal.num 4.2, PdVal.num 4.1]⟩

/-- Witness for C9 at the concrete rate column. -/
theorem C9_rate_point_differences_witness :
    rateCol.vtype = "rate" ∧
    ((rateCol.label, diffChangeCol 1 rateCol.col) ∈ momPpRate [rateCol] ∧
      (rateCol.label, diffChangeCol 12 rateCol.col) ∈ yoyPpRate [rateCol]) ∧
    ([PdVal.num 4, PdVal.num 4.2, PdVal.num 4.1].get ⟨1, by decide⟩ = PdVal.num 4.2) ∧
    ([PdVal.num 4, PdVal.num 4.2, PdVal.num 4.1].get ⟨0, by decide⟩ = PdVal.num 4) ∧
    (diffChangeCol 1 [PdVal.num 4, PdVal.num 4.2, PdVal.num 4.1]).get ⟨1, by decide⟩ =
      PdVal.num (4.2 - 4) :=
  ⟨rfl,
    C9_rate_point_differences.1 [rateCol] rateCol (List.mem_singleton_self rateCol) rfl,
    rfl, rfl,
    C9_rate_point_differences.2.1 1 [PdVal.num 4, PdVal.num 4.2, PdVal.num 4.1] 1
      (by decide) 4.2 4 (by decide) rfl rfl⟩

/-- An empty successful body. -/
def okBody : BlsBody := ⟨"REQUEST_SUCCEEDED", none, []⟩

/-- An environment whose every attempt yields HTTP 304 with a body that
decodes to a successful payload. -/
def oracle304 : Nat → AttemptOutcome := fun _ => .response 304 (some okBody)

/-- C6 counterexample: the claim says an attempt fails on any non-2xx
status, but `resp.raise_for_status()` raises only for codes in
`[400, 600)`; on a final 304 response whose body decodes with the success
sentinel, the very first attempt SUCCEEDS and the payload is returned
with no sleep. -/
theorem C6_counterexample_non2xx_succeeds :
    ¬ (200 ≤ (304 : Int) ∧ (304 : Int) ≤ 299) ∧
    attemptEval (oracle304 1) = .ok okBody ∧
    call_bls oracle304 = (.ok okBody, 0) :=
  ⟨by decide, rfl, call_bls_ok1 rfl⟩

/-- C6 amended: at most 3 attempts are made with `BACKOFF ^ attempt`
seconds of sleep after each failed non-final attempt; a successful
attempt returns its payload (with total delay `BACKOFF^1 + BACKOFF^2` in
the two-transport-faults-then-success scenario), and three failures
propagate the LAST failure.  An attempt fails exactly on a transport
fault, an HTTP status in `[400, 600)` (requests' `raise_for_status` rule
— not "non-2xx"), an undecodable body, or a decoded status field other
than `"REQUEST_SUCCEEDED"`. -/
theorem C6_amended_retry :
    (∀ msg, isErr (attemptEval (.transportError msg)) = true) ∧
    (∀ (code : Int) (body? : Option BlsBody),
      isErr (attemptEval (.response code body?)) = true ↔
        ((400 ≤ code ∧ code < 600) ∨ body? = none ∨
          (∃ b, body? = some b ∧ b.status ≠ "REQUEST_SUCCEEDED"))) ∧
    (∀ (oracle : Nat → AttemptOutcome) (d : BlsBody),
      attemptEval (oracle 1) = .ok d → call_bls oracle = (.ok d, 0)) ∧
    (∀ (oracle : Nat → AttemptOutcome) (e1 : PyError) (d : BlsBody),
      attemptEval (oracle 1) = .error e1 → attemptEval (oracle 2) = .ok d →
      call_bls oracle = (.ok d, BACKOFF ^ 1)) ∧
    (∀ (oracle : Nat → AttemptOutcome) (e1 e2 : PyError) (d : BlsBody),
      attemptEval (oracle 1) = .error e1 → attemptEval (oracle 2) = .error e2 →
      attemptEval (oracle 3) = .ok d →
      call_bls oracle = (.ok d, BACKOFF ^ 1 + BACKOFF ^ 2)) ∧
    (∀ (oracle : Nat → AttemptOutcome) (e1 e2 e3 : PyError),
      attemptEval (oracle 1) = .error e1 → attemptEval (oracle 2) = .error e2 →
      attemptEval (oracle 3) = .error e3 →
      call_bls oracle = (.error e3, BACKOFF ^ 1 + BACKOFF ^ 2)) ∧
    (∀ (oracle : Nat → AttemptOutcome) (msg1 msg2 : String) (d : BlsBody),
      oracle 1 = .transportError msg1 → oracle 2 = .transportError msg2 →
      attemptEval (oracle 3) = .ok d →
      call_bls oracle = (.ok d, BACKOFF ^ 1 + BACKOFF ^ 2)) := by
  refine ⟨fun msg => rfl, ?_, fun o d h1 => call_bls_ok1 h1,
    fun o e1 d h1 h2 => call_bls_ok2 h1 h2,
    fun o e1 e2 d h1 h2 h3 => call_bls_ok3 h1 h2 h3,
    fun o e1 e2 e3 h1 h2 h3 => call_bls_allfail h1 h2 h3, ?_⟩
  · intro code body?
    show isErr (if 400 ≤ code ∧ code < 600 then (.error (.httpError code)) else
      (match body? with
       | none => .error .jsonError
       | some body =>
          if body.status = "REQUEST_SUCCEEDED" then Except.ok body
          else
            .error (.runtimeError ("BLS API not succeeded: " ++
              (match body.message with
               | some m => m
               | none => "None"))))) = true ↔ _
    by_cases hc : 400 ≤ code ∧ code < 600
    · rw [if_pos hc]
      simp [isErr, hc]
    · rw [if_neg hc]
      cases body? with
      | none => simp [isErr, hc]
      | some b =>
          by_cases hs : b.status = "REQUEST_SUCCEEDED"
          · simp [isErr, hc, hs]
          · simp [isErr, hc, hs]
  · intro o msg1 msg2 d h1 h2 h3
    exact call_bls_ok3 (by rw [h1]; rfl) (by rw [h2]; rfl) h3

/-- A stubbed environment: transport faults on attempts 1 and 2, success
on attempt 3. -/
def oracleRetry : Nat → AttemptOutcome :=
  fun n => if n = 3 then .response 200 (some okBody) else .transportError "connection aborted"

/-- Witness for C6's amended theorem: the retry scenario at the stubbed
environment. -/
theorem C6_amended_retry_witness :
    oracleRetry 1 = .transportError "connection aborted" ∧
    oracleRetry 2 = .transportError "connection aborted" ∧
    attemptEval (oracleRetry 3) = .ok okBody ∧
    call_bls oracleRetry = (.ok okBody, BACKOFF ^ 1 + BACKOFF ^ 2) :=
  ⟨rfl, rfl, rfl,
    C6_amended_retry.2.2.2.2.2.2 oracleRetry "connection aborted" "connection aborted"
      okBody rfl rfl rfl⟩

theorem nextDay_of_monthEnd {t : Timestamp} (h : isMonthEndStamp t) :
    (nextDay t.date).day = 1 := by
  obtain ⟨hd, _, _, _⟩ := h
  unfold nextDay
  rw [if_neg (by omega)]
  split <;> rfl

/-- C8: every record any parser variant produces has `period_end` at
midnight of the LAST calendar day of its `(year, month)` (its civil
successor is a 1st), with the Gregorian leap rule governing February —
29 days in 2024 and 2000, 28 in 2023 and 1900. -/
theorem C8_period_end_last_day :
    (∀ (data : BlsBody) (labels : List (String × String)) (rows : List Row),
      parse_bls_result_cpi data labels = .ok rows → ∀ r ∈ rows,
        r.periodEnd.date.day = daysInMonth r.periodEnd.date.year r.periodEnd.date.month ∧
        r.periodEnd.nano = 0 ∧ (nextDay r.periodEnd.date).day = 1) ∧
    (∀ (data : BlsBody) (labels : List (String × String)) (rows : List Row),
      parse_bls_result_ppi data labels = .ok rows → ∀ r ∈ rows,
        r.periodEnd.date.day = daysInMonth r.periodEnd.date.year r.periodEnd.date.month ∧
        r.periodEnd.nano = 0 ∧ (nextDay r.periodEnd.date).day = 1) ∧
    (∀ (data : BlsBody) (labels vtypes : List (String × String)) (rows : List EmpRow),
      parse_bls_result_emp data labels vtypes = .ok rows → ∀ r ∈ rows,
        r.periodEnd.date.day = daysInMonth r.periodEnd.date.year r.periodEnd.date.month ∧
        r.periodEnd.nano = 0 ∧ (nextDay r.periodEnd.date).day = 1) ∧
    daysInMonth 2024 2 = 29 ∧ daysInMonth 2023 2 = 28 ∧
    daysInMonth 2000 2 = 29 ∧ daysInMonth 1900 2 = 28 := by
  refine ⟨?_, ?_, ?_, by decide, by decide, by decide, by decide⟩
  · intro data labels rows h r hr
    have hs := parse_bls_result_cpi_monthEnd h r hr
    exact ⟨hs.1, hs.2.1, nextDay_of_monthEnd hs⟩
  · intro data labels rows h r hr
    have hs := parse_bls_result_ppi_monthEnd h r hr
    exact ⟨hs.1, hs.2.1, nextDay_of_monthEnd hs⟩
  · intro data labels vtypes rows h r hr
    have hs := parse_bls_result_emp_monthEnd h r hr
    exact ⟨hs.1, hs.2.1, nextDay_of_monthEnd hs⟩

/-- A response with one leap-year February observation. -/
def bodyFeb : BlsBody := ⟨"REQUEST_SUCCEEDED", none, [⟨"S1", [⟨"2024", "M02", "100"⟩]⟩]⟩

/-- The row the CPI parser builds from `bodyFeb`: period end 2024-02-29. -/
def febRow2024 : Row := ⟨"S1", "S1", ⟨⟨2024, 2, 29⟩, 0⟩, ((100 : Nat) : ℚ)⟩

/-- Witness for C8 on the concrete leap-February response. -/
theorem C8_period_end_last_day_witness :
    parse_bls_result_cpi bodyFeb [] = .ok [febRow2024] ∧
    febRow2024 ∈ [febRow2024] ∧
    (febRow2024.periodEnd.date.day =
        daysInMonth febRow2024.periodEnd.date.year febRow2024.periodEnd.date.month ∧
      febRow2024.periodEnd.nano = 0 ∧ (nextDay febRow2024.periodEnd.date).day = 1) :=
  ⟨rfl, List.mem_singleton_self febRow2024,
    C8_period_end_last_day.1 bodyFeb [] [febRow2024] rfl febRow2024
      (List.mem_singleton_self febRow2024)⟩

/-- The batch loop of `main` (`export_cpi_details.py` lines 153–163): one
`parse_bls_result` per batch response, then `pd.concat(frames)` in batch
order — concatenation, with NO re-sort across batches. -/
def batchConcatCpi (labels : List (String × String)) :
    List BlsBody → Except PyError (List Row)
  | [] => .ok []
  | b :: bs =>
    match parse_bls_result_cpi b labels with
    | .error e => .error e
    | .ok rows =>
      match batchConcatCpi labels bs with
      | .error e => .error e
      | .ok more => .ok (rows ++ more)

/-- A batch response whose only series id is `"B"`. -/
def bodyB : BlsBody := ⟨"REQUEST_SUCCEEDED", none, [⟨"B", [⟨"2020", "M01", "2"⟩]⟩]⟩

/-- A batch response whose only series id is `"A"`. -/
def bodyA : BlsBody := ⟨"REQUEST_SUCCEEDED", none, [⟨"A", [⟨"2020", "M01", "1"⟩]⟩]⟩

/-- The row parsed from `bodyB` (label falls back to the id). -/
def rowBatchB : Row := ⟨"B", "B", ⟨⟨2020, 1, 31⟩, 0⟩, ((2 : Nat) : ℚ)⟩

/-- The row parsed from `bodyA`. -/
def rowBatchA : Row := ⟨"A", "A", ⟨⟨2020, 1, 31⟩, 0⟩, ((1 : Nat) : ℚ)⟩

/-- C10 counterexample: each per-batch table is sorted, but the
concatenated table (which becomes the Raw_Long sheet) is NOT — with two
batches whose labels interleave, consecutive rows `"B"`, `"A"` violate
the claimed (label, period_end) ordering. -/
theorem C10_counterexample_concat_unsorted :
    batchConcatCpi [] [bodyB, bodyA] = .ok [rowBatchB, rowBatchA] ∧
    ¬ List.Chain' rowOrdered [rowBatchB, rowBatchA] := by
  refine ⟨rfl, fun h => ?_⟩
  rcases (List.chain'_cons.mp h).1 with h1 | h1
  · exact absurd h1 (by decide)
  · exact absurd h1.1 (by decide)

/-- C10 amended: the flat record table RETURNED BY EACH PARSER CALL is
sorted ascending by (label, period_end); the concatenation of several
batches' tables is sorted within each batch but not, in general, across
batch boundaries. -/
theorem C10_amended_parser_output_sorted :
    (∀ (data : BlsBody) (labels : List (String × String)) (rows : List Row),
      parse_bls_result_cpi data labels = .ok rows → List.Chain' rowOrdered rows) ∧
    (∀ (data : BlsBody) (labels : List (String × String)) (rows : List Row),
      parse_bls_result_ppi data labels = .ok rows → List.Chain' rowOrdered rows) ∧
    (∀ (data : BlsBody) (labels vtypes : List (String × String)) (rows : List EmpRow),
      parse_bls_result_emp data labels vtypes = .ok rows →
        List.Chain' empRowOrdered rows) :=
  ⟨fun _ _ _ h => parse_bls_result_cpi_sorted h,
   fun _ _ _ h => parse_bls_result_ppi_sorted h,
   fun _ _ _ _ h => parse_bls_result_emp_sorted h⟩

/-- One batch response holding the series `"B"` and `"A"` in that order. -/
def bodyAB : BlsBody :=
  ⟨"REQUEST_SUCCEEDED", none,
    [⟨"B", [⟨"2020", "M01", "2"⟩]⟩, ⟨"A", [⟨"2020", "M01", "1"⟩]⟩]⟩

/-- Witness for C10's amended theorem: a single parser call re-orders the
two series into label order. -/
theorem C10_amended_parser_output_sorted_witness :
    parse_bls_result_cpi bodyAB [] = .ok [rowBatchA, rowBatchB] ∧
    List.Chain' rowOrdered [rowBatchA, rowBatchB] :=
  ⟨rfl, C10_amended_parser_output_sorted.1 bodyAB [] [rowBatchA, rowBatchB] rfl⟩
